import Mathlib

/-!
Verification of the AutoQASM excerpt of the Braket SDK:
`TypedParameter` (a type-validated free parameter) and the OpenQASM 3.0
serialization exercised by the gate-sequence tests.
-/

set_option maxRecDepth 4000

namespace Braket

/-- The possible values of the `type` argument of `TypedParameter.__init__`.
The accepted classes `float`, `int`, `FloatVar`, `IntVar` are constructors,
together with representative unsupported values a caller could pass
(a string class, a boolean class, a complex-number class, `None`). -/
inductive PyType where
  | float
  | int
  | FloatVar
  | IntVar
  | str
  | bool
  | complex
  | none
deriving DecidableEq, Repr

/-- Python textual rendering of the `type` argument as interpolated into the
error message. -/
def PyType.pyName : PyType → String
  | PyType.float => "float"
  | PyType.int => "int"
  | PyType.FloatVar => "FloatVar"
  | PyType.IntVar => "IntVar"
  | PyType.str => "str"
  | PyType.bool => "bool"
  | PyType.complex => "complex"
  | PyType.none => "None"

/-- The membership test `type in [float, int, FloatVar, IntVar]` from
`TypedParameter.__init__`. -/
def supportedType : PyType → Bool
  | PyType.float => true
  | PyType.int => true
  | PyType.FloatVar => true
  | PyType.IntVar => true
  | _ => false

/-- `self.__class__.__name__` for a `TypedParameter` instance. -/
def typedParameterClassName : String := "TypedParameter"

/-- The message of the `ValueError` raised by `TypedParameter.__init__`:
`f"Unsupported type for {self.__class__.__name__}: {type}."`. -/
def unsupportedTypeMsg (ty : PyType) : String :=
  "Unsupported type for " ++ typedParameterClassName ++ ": " ++ ty.pyName ++ "."

/-- A fully constructed `TypedParameter`: the inherited `name` from
`FreeParameter` and the `_type` field set by `TypedParameter.__init__`. -/
structure TypedParameter where
  name : String
  typeField : PyType
deriving DecidableEq, Repr

/-- The `type` property of `TypedParameter`: returns `self._type`. -/
def TypedParameter.type (p : TypedParameter) : PyType := p.typeField

/-- `TypedParameter.__init__(name, type)`: validates `type` against the
accepted list, raising `ValueError` otherwise; on success calls
`super().__init__(name=name)` and then sets `self._type = type`. -/
def TypedParameter.make (name : String) (ty : PyType) :
    Except String TypedParameter :=
  if supportedType ty then
    Except.ok { name := name, typeField := ty }
  else
    Except.error (unsupportedTypeMsg ty)

/-- `TypedParameter(name)` with the `type` argument omitted: the signature
declares `type: type | None = float`. -/
def TypedParameter.makeDefault (name : String) : Except String TypedParameter :=
  TypedParameter.make name PyType.float

/-- A single field mutation performed on the object under construction:
either the base initializer setting the name, or `self._type = type`. -/
inductive InitEffect where
  | setName (n : String)
  | setType (t : PyType)
deriving DecidableEq, Repr

/-- The mutations performed by `FreeParameter.__init__(name=name)` on the
object under construction: it records the parameter name. -/
def freeParameterInitEffects (name : String) : List InitEffect :=
  [InitEffect.setName name]

/-- Trace semantics of `TypedParameter.__init__(name, type)`: the list of
field mutations performed on `self`, paired with the raised error message if
any. The type check at the top of the body runs before `super().__init__`,
so on the error path no mutation has happened yet. -/
def TypedParameter.initTrace (name : String) (ty : PyType) :
    List InitEffect × Option String :=
  if supportedType ty then
    (freeParameterInitEffects name ++ [InitEffect.setType ty], Option.none)
  else
    ([], Option.some (unsupportedTypeMsg ty))

/-- A qubit reference in an AutoQASM program: either a virtual qubit (index
into the implicit `__qubits__` register) or a particular physical qubit. -/
inductive Qubit where
  | virt (n : Nat)
  | phys (n : Nat)
deriving DecidableEq, Repr

/-- Modelled from the spec: rendering of a qubit reference in the OpenQASM
output exercised by the test goldens. Virtual qubits are emitted as indices
into the `__qubits__` register and physical qubits as `$`-prefixed
identifiers; the emitting conversion context is external to the excerpt. -/
def Qubit.ref : Qubit → String
  | Qubit.virt n => "__qubits__[" ++ toString n ++ "]"
  | Qubit.phys n => "$" ++ toString n

/-- An instruction recorded by the program-building context via the gate
functions `h`, `cnot` and `measure` used in the tests. -/
inductive Instr where
  | h (q : Qubit)
  | cnot (a b : Qubit)
  | measure (q : Qubit)
deriving DecidableEq, Repr

/-- Modelled from the spec: the implicit result-variable naming convention
`__bit_<n>__` for the n-th auto-allocated measurement result; the
allocating converter is external to the excerpt. -/
def bitName (n : Nat) : String := "__bit_" ++ toString n ++ "__"

/-- Modelled from the spec: the OpenQASM lines produced for one instruction,
given the count of measurement results allocated so far. A gate becomes one
line; a measurement with no prior result variable declared becomes a
generated bit declaration plus an assignment line. Returns the lines and
the updated measurement counter. -/
def Instr.lower (counter : Nat) : Instr → List String × Nat
  | Instr.h q => (["h " ++ q.ref ++ ";"], counter)
  | Instr.cnot a b => (["cnot " ++ a.ref ++ ", " ++ b.ref ++ ";"], counter)
  | Instr.measure q =>
      ([("bit " ++ bitName counter ++ ";"),
        (bitName counter ++ " = measure " ++ q.ref ++ ";")], counter + 1)

/-- Lowers a list of instructions in order, threading the measurement
counter, starting from `counter`. -/
def lowerInstrs (counter : Nat) : List Instr → List String
  | [] => []
  | i :: rest =>
      let r := i.lower counter
      r.1 ++ lowerInstrs r.2 rest

/-- A program as assembled by the conversion context before serialization:
the recorded instructions, plus the arity of the `__qubits__` register
declaration when the context emits one. -/
structure Program where
  qubitDecl : Option Nat
  instrs : List Instr
deriving DecidableEq, Repr

/-- Modelled from the spec: `to_ir` serialization to OpenQASM 3.0 text. The
header line comes first, then the `qubit[N] __qubits__;` register
declaration when the context declares one (the physical-qubit programs
declare none), then the lowered instructions, joined by newlines with no
trailing newline. The lowering itself is external to the excerpt; this
definition reproduces the output format fixed by the test goldens, as the
list of output lines in order. -/
def Program.irLines (p : Program) : List String :=
  let declLines : List String :=
    match p.qubitDecl with
    | Option.none => []
    | Option.some n => ["qubit[" ++ toString n ++ "] __qubits__;"]
  "OPENQASM 3.0;" :: (declLines ++ lowerInstrs 0 p.instrs)

/-- The serialized program: the lines joined by newlines, no trailing
newline. -/
def Program.to_ir (p : Program) : String :=
  String.intercalate "\n" p.irLines

/-- The program built by the `bell_state_program` fixture: `h` on qubit 0
then `cnot` on qubits 0 and 1, with the two-qubit register declared. -/
def bellStateProgram : Program :=
  { qubitDecl := Option.some 2,
    instrs := [Instr.h (Qubit.virt 0), Instr.cnot (Qubit.virt 0) (Qubit.virt 1)] }

/-- The program built by the `physical_bell_program` fixture: the Bell
preparation on physical qubits 0 and 5, with no register declaration. -/
def physicalBellProgram : Program :=
  { qubitDecl := Option.none,
    instrs := [Instr.h (Qubit.phys 0), Instr.cnot (Qubit.phys 0) (Qubit.phys 5)] }

/-- The program built in `test_bell_with_measure`: `h(0)`, `cnot(0, 1)`,
`measure(0)` inside `aq.build_program()`, which emits no register
declaration. -/
def bellWithMeasureProgram : Program :=
  { qubitDecl := Option.none,
    instrs := [Instr.h (Qubit.virt 0), Instr.cnot (Qubit.virt 0) (Qubit.virt 1),
               Instr.measure (Qubit.virt 0)] }

/-- C1: for every `type` outside the accepted set {float, int, FloatVar,
IntVar}, constructing `TypedParameter(name, type)` fails at construction
time with an unsupported-type error whose message names the rejected type
and the constructing class, and no object is returned. -/
theorem C1_unsupported_type_rejected (name : String) (ty : PyType)
    (h : supportedType ty = false) :
    TypedParameter.make name ty =
      Except.error
        ("Unsupported type for " ++ typedParameterClassName ++ ": "
          ++ ty.pyName ++ ".") := by
  simp [TypedParameter.make, h, unsupportedTypeMsg]

/-- Witness for C1 at `type = str`. -/
theorem C1_unsupported_type_rejected_witness :
    supportedType PyType.str = false ∧
      TypedParameter.make "alpha" PyType.str =
        Except.error
          ("Unsupported type for " ++ typedParameterClassName ++ ": "
            ++ PyType.str.pyName ++ ".") :=
  ⟨rfl, C1_unsupported_type_rejected "alpha" PyType.str rfl⟩

/-- C2: for every `type` in the accepted set and every name, construction
succeeds and the `type` accessor of the result returns exactly the `type`
that was passed in. -/
theorem C2_supported_type_accepted (name : String) (ty : PyType)
    (h : supportedType ty = true) :
    ∃ p : TypedParameter,
      TypedParameter.make name ty = Except.ok p ∧ p.type = ty := by
  refine ⟨{ name := name, typeField := ty }, ?_, rfl⟩
  simp [TypedParameter.make, h]

/-- Witness for C2 at `type = IntVar`. -/
theorem C2_supported_type_accepted_witness :
    supportedType PyType.IntVar = true ∧
      ∃ p : TypedParameter,
        TypedParameter.make "beta" PyType.IntVar = Except.ok p ∧
          p.type = PyType.IntVar :=
  ⟨rfl, C2_supported_type_accepted "beta" PyType.IntVar rfl⟩

/-- C4: every `TypedParameter` produced by the constructor has a `type` in
the accepted set; since the source exposes only a getter property and the
embedding has no mutator, no instance with an unsupported type can exist. -/
theorem C4_type_always_supported (name : String) (ty : PyType)
    (p : TypedParameter) (h : TypedParameter.make name ty = Except.ok p) :
    supportedType p.type = true := by
  unfold TypedParameter.make at h
  by_cases hs : supportedType ty = true
  · rw [if_pos hs] at h
    injection h with h
    rw [← h]
    exact hs
  · rw [if_neg hs] at h
    exact Except.noConfusion h

/-- Witness for C4 at `TypedParameter("x", int)`. -/
theorem C4_type_always_supported_witness :
    supportedType (TypedParameter.mk "x" PyType.int).type = true :=
  C4_type_always_supported "x" PyType.int (TypedParameter.mk "x" PyType.int) rfl

/-- C5: omitting the `type` argument yields a parameter whose `type` is the
floating-point scalar default. -/
theorem C5_default_type_is_float (name : String) :
    ∃ p : TypedParameter,
      TypedParameter.makeDefault name = Except.ok p ∧ p.type = PyType.float :=
  ⟨{ name := name, typeField := PyType.float }, rfl, rfl⟩

/-- C7: the constructor preserves the name unmodified, including non-ASCII
names: `TypedParameter("θ").name == "θ"`, and in general the name passed in
is the name exposed by the result. -/
theorem C7_name_preserved :
    (∃ p : TypedParameter,
        TypedParameter.makeDefault "θ" = Except.ok p ∧ p.name = "θ") ∧
      ∀ (name : String) (ty : PyType) (p : TypedParameter),
        TypedParameter.make name ty = Except.ok p → p.name = name := by
  refine ⟨⟨{ name := "θ", typeField := PyType.float }, rfl, rfl⟩, ?_⟩
  intro name ty p h
  unfold TypedParameter.make at h
  by_cases hs : supportedType ty = true
  · rw [if_pos hs] at h
    injection h with h
    rw [← h]
  · rw [if_neg hs] at h
    exact Except.noConfusion h

/-- Witness for C7 at `TypedParameter("φ", int)`. -/
theorem C7_name_preserved_witness :
    (TypedParameter.mk "φ" PyType.int).name = "φ" :=
  C7_name_preserved.2 "φ" PyType.int (TypedParameter.mk "φ" PyType.int) rfl

/-- C8: on the success path the constructor performs exactly the base
free-parameter initialization with the name followed by setting its own
type field, in that order, and nothing else; no error is raised. -/
theorem C8_init_effects_ordered (name : String) (ty : PyType)
    (h : supportedType ty = true) :
    TypedParameter.initTrace name ty =
      ([InitEffect.setName name, InitEffect.setType ty], Option.none) := by
  simp [TypedParameter.initTrace, h, freeParameterInitEffects]

/-- Witness for C8 at `TypedParameter("gamma", float)`. -/
theorem C8_init_effects_ordered_witness :
    supportedType PyType.float = true ∧
      TypedParameter.initTrace "gamma" PyType.float =
        ([InitEffect.setName "gamma", InitEffect.setType PyType.float],
          Option.none) :=
  ⟨rfl, C8_init_effects_ordered "gamma" PyType.float rfl⟩

/-- C9: when construction fails with the unsupported-type error, the type
check runs before the base initializer, so the failing constructor performs
no field mutation at all — not even the name is set. -/
theorem C9_failed_init_mutates_nothing (name : String) (ty : PyType)
    (h : supportedType ty = false) :
    TypedParameter.initTrace name ty =
      ([], Option.some (unsupportedTypeMsg ty)) := by
  simp [TypedParameter.initTrace, h]

/-- Witness for C9 at `type = None`. -/
theorem C9_failed_init_mutates_nothing_witness :
    supportedType PyType.none = false ∧
      TypedParameter.initTrace "delta" PyType.none =
        ([], Option.some (unsupportedTypeMsg PyType.none)) :=
  ⟨rfl, C9_failed_init_mutates_nothing "delta" PyType.none rfl⟩

/-- C6: the two-qubit Bell preparation program serializes to exactly the
four golden lines, with exact whitespace and statement ordering. -/
theorem C6_bell_state_golden :
    bellStateProgram.to_ir =
      "OPENQASM 3.0;\nqubit[2] __qubits__;\nh __qubits__[0];\ncnot __qubits__[0], __qubits__[1];" :=
  rfl

/-- C3: the Bell program followed by a measurement of qubit 0 with no prior
result variable serializes to exactly the gate lines plus a generated
`bit __bit_0__;` declaration and an assignment line, and the n-th
auto-allocated measurement result is named `__bit_<n>__`. -/
theorem C3_bell_with_measure_golden :
    bellWithMeasureProgram.to_ir =
      "OPENQASM 3.0;\nh __qubits__[0];\ncnot __qubits__[0], __qubits__[1];\nbit __bit_0__;\n__bit_0__ = measure __qubits__[0];" ∧
      lowerInstrs 0 [Instr.measure (Qubit.virt 0), Instr.measure (Qubit.virt 1)] =
        ["bit __bit_0__;", "__bit_0__ = measure __qubits__[0];",
         "bit __bit_1__;", "__bit_1__ = measure __qubits__[1];"] :=
  ⟨rfl, rfl⟩

/-- C10: the Bell preparation on physical qubits 0 and 5 serializes to
exactly the three golden lines, physical qubits are emitted as
dollar-prefixed identifiers, and no line of the output is a `qubit[...]`
register declaration. -/
theorem C10_physical_bell_golden :
    physicalBellProgram.to_ir = "OPENQASM 3.0;\nh $0;\ncnot $0, $5;" ∧
      ∀ n : Nat,
        ("qubit[" ++ toString n ++ "] __qubits__;") ∉
          physicalBellProgram.irLines := by
  refine ⟨rfl, ?_⟩
  intro n hmem
  have hq : ("qubit[" ++ toString n ++ "] __qubits__;").data.head? =
      Option.some (Char.ofNat 113) := by
    rw [String.data_append, String.data_append]
    rfl
  have hl : physicalBellProgram.irLines =
      ["OPENQASM 3.0;", "h $0;", "cnot $0, $5;"] := rfl
  rw [hl] at hmem
  simp only [List.mem_cons, List.not_mem_nil, or_false] at hmem
  rcases hmem with h | h | h <;>
    · rw [h] at hq
      exact absurd hq (by decide)

end Braket
